import Mathlib

/-!
Verification of the Dealer's Dojo repository: a shallow embedding of the
client-side game controller (`src/unnamed/part_000`, the DOMContentLoaded
module) and the backend relay handler (`src/api/chat.js`), with theorems
settling the specified properties.

Modelling conventions:
* JavaScript numbers that hold scores are `Int` (signed accumulator); counts
  and indices are `Nat`.
* `localStorage` is modelled as a field `storage` of the state.  A stored
  blob is represented by its `JSON.parse` outcome: `none` = no record,
  `some none` = a record that is present but unparseable (`JSON.parse`
  throws), `some (some p)` = a record that parses to the progress value `p`.
* A thrown JavaScript exception that escapes a function is `Except.error ()`.
* The relay call performed inside `handleChatSubmit`'s `try` block is a
  parameter `outcome : RelayOutcome`: the `fetch`/`response.json()` sequence
  either yields the parsed AI payload or throws with a message.
* DOM side effects that carry game state (chat log entries, the debrief
  texts, the enabled/disabled state of the input) are fields of the state;
  pure presentation (CSS, scrolling, focus) is dropped.
-/

/-- One level record from `levels.json` (read-only after load). -/
structure LevelDefinition where
  id : Nat
  title : String
  briefing : String
  systemPrompt : String
  missionLength : Nat
  passScore : Int
deriving DecidableEq, Repr

/-- The persisted player progress record (`playerProgress` in the source). -/
structure PlayerProgress where
  unlocks : List Bool
  scores : List Int
deriving DecidableEq, Repr

/-- The module-level initial value of `playerProgress`: level 1 unlocked by
default, all scores zero. -/
def defaultPlayerProgress : PlayerProgress :=
  { unlocks := [true, false, false], scores := [0, 0, 0] }

/-- Role tag of a model-facing history entry. -/
inductive Role where
  | user
  | model
deriving DecidableEq, Repr

/-- One entry of `chatHistory`: `\x7b role, parts: [\x7b text \x7d] \x7d` in the
source, flattened to its single text part. -/
structure ChatTurn where
  role : Role
  text : String
deriving DecidableEq, Repr

/-- The structured payload the relay returns on success. -/
structure AiData where
  response : String
  score_change : Int
deriving DecidableEq, Repr

/-- Serialization `JSON.stringify(aiData)` as used when the model reply is appended to
`chatHistory` (quotes inside `response` are not escaped by this model; no
claim inspects the serialized text). -/
def serializeAiData (d : AiData) : String :=
  "\x7b\"response\":\"" ++ d.response ++ "\",\"score_change\":" ++
    toString d.score_change ++ "\x7d"

/-- Sender tag of a transcript (chat log) entry: `addMessageToLog`'s first
argument. -/
inductive Sender where
  | user
  | ai
  | system
deriving DecidableEq, Repr

/-- The four mutually exclusive screens of `showScreen`. -/
inductive Screen where
  | start
  | levelSelect
  | game
  | debrief
deriving DecidableEq, Repr

/-- The outcome of the relay round trip inside `handleChatSubmit`'s `try`
block: either the parsed `aiData`, or a thrown error (non-ok response or
transport/parse failure) carrying `error.message`. -/
inductive RelayOutcome where
  | success (data : AiData)
  | failure (message : String)
deriving DecidableEq, Repr

/-- The mutable state of the client module: the module-level variables plus
the DOM state that carries game data. -/
structure St where
  playerProgress : PlayerProgress
  levelsData : List LevelDefinition
  currentLevel : Option LevelDefinition
  chatHistory : List ChatTurn
  currentScore : Int
  messageCount : Nat
  screen : Screen
  chatLog : List (Sender × String)
  inputDisabled : Bool
  debriefTitle : String
  debriefClass : String
  debriefMessage : String
  debriefScore : Int
  storage : Option (Option PlayerProgress)
deriving DecidableEq, Repr

/-- Embeds `saveProgress()`: serialize the whole record to the fixed storage key
(a stored value that was written by this program always parses back). -/
def saveProgress (s : St) : St :=
  { s with storage := some (some s.playerProgress) }

/-- Embeds `loadProgress()`: read the stored record; if present, replace
`playerProgress` with its `JSON.parse` result verbatim (an unparseable
record makes `JSON.parse` throw, and nothing catches it); if absent, save
the current (default) structure. -/
def loadProgress (s : St) : Except Unit St :=
  match s.storage with
  | none => Except.ok (saveProgress s)
  | some none => Except.error ()
  | some (some p) => Except.ok { s with playerProgress := p }

/-- Models the JavaScript array write `playerProgress.unlocks[i] = true`: in range
it overwrites, out of range it extends the array, the fresh holes reading
back as `undefined`, which every `unlocks[...]` read in the source treats
as falsy (modelled `false`). -/
def setTrueAt (l : List Bool) (i : Nat) : List Bool :=
  if i < l.length then l.set i true
  else l ++ List.replicate (i - l.length) false ++ [true]

/-- Body of `endMission()`: compute pass/fail, update the high score under a
strictly-greater comparison (an out-of-range `scores[levelIndex]` reads
`undefined`, and `currentScore > undefined` is false, so no write), on a
pass unlock the next level if it exists and is not already unlocked, set
the debrief texts, persist, and show the debrief screen.  This is the body
of `endMission()` with the active level passed explicitly. -/
def endMissionCore (s : St) (lvl : LevelDefinition) : St :=
  let levelIndex := lvl.id - 1
  let pass := lvl.passScore ≤ s.currentScore
  let progress1 :=
    match s.playerProgress.scores[levelIndex]? with
    | some old =>
        if old < s.currentScore then
          { s.playerProgress with
            scores := s.playerProgress.scores.set levelIndex s.currentScore }
        else s.playerProgress
    | none => s.playerProgress
  let s1 :=
    if pass then
      let nextLevelIndex := levelIndex + 1
      if nextLevelIndex < s.levelsData.length &&
          !(progress1.unlocks.getD nextLevelIndex false) then
        { s with
          playerProgress :=
            { progress1 with unlocks := setTrueAt progress1.unlocks nextLevelIndex }
          debriefTitle := "Mission Successful"
          debriefClass := "pass"
          debriefMessage :=
            "Excellent work, Agent. You met the objective." ++
              " A new assignment is now available." }
      else
        { s with
          playerProgress := progress1
          debriefTitle := "Mission Successful"
          debriefClass := "pass"
          debriefMessage := "Excellent work, Agent. You met the objective." }
    else
      { s with
        playerProgress := progress1
        debriefTitle := "Mission Failed"
        debriefClass := "fail"
        debriefMessage :=
          "Target lost. Report for reassessment. We will try this again." }
  let s2 := { s1 with debriefScore := s.currentScore }
  { saveProgress s2 with screen := Screen.debrief }

/-- Embeds `endMission()` proper: dereferencing `currentLevel` throws when it is
null; otherwise run the body above on the active level. -/
def endMission (s : St) : Except Unit St :=
  match s.currentLevel with
  | none => Except.error ()
  | some lvl => Except.ok (endMissionCore s lvl)

/-- JavaScript `String.prototype.trim`, modelled on the character list
(leading and trailing whitespace stripped; structural recursion so that
concrete inputs evaluate). -/
def trimStr (s : String) : String :=
  String.mk
    (((s.data.dropWhile Char.isWhitespace).reverse.dropWhile
        Char.isWhitespace).reverse)

/-- Embeds `handleChatSubmit(event)`: trim the input and reject if empty; log the
user message and increment `messageCount` before the relay call; on relay
success append the user turn and the serialized reply to the model-facing
history and add `score_change` to the score; on any thrown error log a
system transcript entry instead; the `finally` block re-enables input; then
run the end-of-mission check against `currentLevel.missionLength`
(throwing if `currentLevel` is null). -/
def handleChatSubmit (s : St) (raw : String) (outcome : RelayOutcome) :
    Except Unit St :=
  let userMessage := trimStr raw
  if userMessage = "" then Except.ok s
  else
    let s1 :=
      { s with
        chatLog := s.chatLog ++ [(Sender.user, userMessage)]
        messageCount := s.messageCount + 1
        inputDisabled := true }
    let s2 :=
      match outcome with
      | RelayOutcome.success d =>
          { s1 with
            chatHistory :=
              s1.chatHistory ++
                [ChatTurn.mk Role.user userMessage,
                 ChatTurn.mk Role.model (serializeAiData d)]
            chatLog := s1.chatLog ++ [(Sender.ai, d.response)]
            currentScore := s1.currentScore + d.score_change }
      | RelayOutcome.failure msg =>
          { s1 with
            chatLog :=
              s1.chatLog ++
                [(Sender.system,
                  "Error: Could not get response from AI. " ++ msg)] }
    let s3 := { s2 with inputDisabled := false }
    match s.currentLevel with
    | none => Except.error ()
    | some lvl =>
        if lvl.missionLength ≤ s3.messageCount then endMission s3
        else Except.ok s3

/-- Embeds `startLevel(levelId)`: the variable `currentLevel` is assigned the `find` result
before the not-found guard, so an unknown id leaves it `undefined`; on a
hit, session state is reset, the briefing is logged, and the game screen is
shown. -/
def startLevel (s : St) (levelId : Nat) : St :=
  match s.levelsData.find? (fun l => l.id == levelId) with
  | none => { s with currentLevel := none }
  | some lvl =>
      { s with
        currentLevel := some lvl
        currentScore := 0
        messageCount := 0
        chatHistory := []
        chatLog := [(Sender.system, lvl.briefing)]
        screen := Screen.game }

/-- The intermediate state `handleChatSubmit` reaches right after its
`try`/`catch`/`finally` block for the trimmed input `userMessage`: the user
message logged, `messageCount` incremented, the relay outcome folded into
history / transcript / score, and input re-enabled by the `finally`
block.  (Equation `handleChatSubmit_eq` below ties it to
`handleChatSubmit`.) -/
def afterOutcome (s : St) (userMessage : String) : RelayOutcome → St
  | RelayOutcome.success d =>
      { s with
        chatLog :=
          s.chatLog ++ [(Sender.user, userMessage)] ++ [(Sender.ai, d.response)]
        messageCount := s.messageCount + 1
        chatHistory :=
          s.chatHistory ++
            [ChatTurn.mk Role.user userMessage,
             ChatTurn.mk Role.model (serializeAiData d)]
        currentScore := s.currentScore + d.score_change
        inputDisabled := false }
  | RelayOutcome.failure msg =>
      { s with
        chatLog :=
          s.chatLog ++ [(Sender.user, userMessage)] ++
            [(Sender.system, "Error: Could not get response from AI. " ++ msg)]
        messageCount := s.messageCount + 1
        inputDisabled := false }

/-! ### The backend relay handler (`src/api/chat.js`) -/

/-- An incoming HTTP request as the handler sees it: the method and the
three body fields.  A `none` field is absent from the body (`undefined`). -/
structure RelayRequest where
  method : String
  systemPrompt : Option String
  history : Option (List ChatTurn)
  userMessage : Option String
deriving DecidableEq, Repr

/-- JavaScript falsiness of a possibly-absent string: `undefined` and the
empty string are falsy (`!systemPrompt`, `!userMessage`, `!API_KEY`). -/
def strFalsy : Option String → Bool
  | none => true
  | some s => s == ""

/-- The outcome of the external model round trip inside the handler's `try`
block: either the reply text parsed to the structured payload, or a thrown
error (model call failure or `JSON.parse` failure) carrying
`error.message`. -/
inductive ModelOutcome where
  | success (data : AiData)
  | failure (message : String)
deriving DecidableEq, Repr

/-- The JSON body of a handler response. -/
inductive RespBody where
  | err (msg : String)
  | errWithDetails (msg details : String)
  | payload (d : AiData)
deriving DecidableEq, Repr

/-- A handler response: HTTP status plus JSON body. -/
structure RelayResponse where
  status : Nat
  body : RespBody
deriving DecidableEq, Repr

/-- Embeds `handler(req, res)` from `src/api/chat.js`: check the API key, then the
method, then the three required body fields, then call the external model
and forward its parsed reply.  The second component of the result records
whether the external model was invoked. -/
def handler (apiKey : Option String) (req : RelayRequest)
    (outcome : ModelOutcome) : RelayResponse × Bool :=
  if strFalsy apiKey then
    ({ status := 500, body := RespBody.err "API key not configured." }, false)
  else if req.method ≠ "POST" then
    ({ status := 405, body := RespBody.err "Method Not Allowed" }, false)
  else if strFalsy req.systemPrompt || req.history.isNone ||
      strFalsy req.userMessage then
    ({ status := 400, body := RespBody.err "Missing required fields." }, false)
  else
    match outcome with
    | ModelOutcome.success d =>
        ({ status := 200, body := RespBody.payload d }, true)
    | ModelOutcome.failure msg =>
        ({ status := 500,
           body := RespBody.errWithDetails "Failed to fetch AI response." msg },
         true)

/-! ### Concrete fixtures used by witnesses and counterexamples -/

/-- A sample level as `levels.json` provides them. -/
def lvlA : LevelDefinition :=
  { id := 1, title := "The Haggle", briefing := "Close the deal."
    systemPrompt := "Play the buyer.", missionLength := 3, passScore := 10 }

/-- A state in the middle of a mission on `lvlA`. -/
def gameSt : St :=
  { playerProgress := defaultPlayerProgress
    levelsData := [lvlA]
    currentLevel := some lvlA
    chatHistory := []
    currentScore := 0
    messageCount := 0
    screen := Screen.game
    chatLog := [(Sender.system, lvlA.briefing)]
    inputDisabled := false
    debriefTitle := ""
    debriefClass := ""
    debriefMessage := ""
    debriefScore := 0
    storage := none }

/-- A parseable stored record that violates every data-model invariant:
`unlocks[0]` is false and the two arrays disagree with the catalog length. -/
def badProgress : PlayerProgress := { unlocks := [false], scores := [5, 7] }

/-- A stored record that relocks level 2 relative to `relockSt`'s in-memory
progress. -/
def regressedProgress : PlayerProgress :=
  { unlocks := [true, false, false], scores := [0, 0, 0] }

/-- A state whose in-memory progress has level 2 unlocked while the stored
record does not. -/
def relockSt : St :=
  { gameSt with
    playerProgress := { unlocks := [true, true, false], scores := [0, 0, 0] }
    storage := some (some regressedProgress) }

/-- A GET request with an empty body. -/
def reqGet : RelayRequest :=
  { method := "GET", systemPrompt := none, history := none, userMessage := none }

/-- A well-formed POST request. -/
def reqGood : RelayRequest :=
  { method := "POST", systemPrompt := some "Play the buyer."
    history := some [], userMessage := some "Deal?" }

/-! ### Helper lemmas -/

/-- Lemma: `setTrueAt` leaves every position either at its old value or `true`
(reads through `getD _ false`, the model of a falsy-defaulted array read). -/
theorem setTrueAt_getD (l : List Bool) (j i : Nat) :
    (setTrueAt l j).getD i false = true ∨
    (setTrueAt l j).getD i false = l.getD i false := by
  unfold setTrueAt
  rcases eq_or_ne j i with rfl | hne
  · left
    split_ifs with hj
    · simp [List.getD_eq_getElem?_getD, List.getElem?_set_self hj]
    · push_neg at hj
      have hlen : (l ++ List.replicate (j - l.length) false).length = j := by
        simp [List.length_append, List.length_replicate]
        omega
      rw [List.getD_eq_getElem?_getD,
        List.getElem?_append_right (le_of_eq hlen), hlen, Nat.sub_self]
      rfl
  · split_ifs with hj
    · right
      rw [List.getD_eq_getElem?_getD, List.getElem?_set_ne hne,
        List.getD_eq_getElem?_getD]
    · push_neg at hj
      have hlen : (l ++ List.replicate (j - l.length) false).length = j := by
        simp [List.length_append, List.length_replicate]
        omega
      by_cases hi : i < l.length
      · right
        rw [List.getD_eq_getElem?_getD, List.getElem?_append,
          if_pos (by omega : i < (l ++ List.replicate (j - l.length) false).length),
          List.getElem?_append, if_pos hi, List.getD_eq_getElem?_getD]
      · push_neg at hi
        right
        rw [List.getD_eq_getElem?_getD, List.getD_eq_getElem?_getD,
          List.getElem?_len_le hi]
        by_cases hij : i < j
        · rw [List.getElem?_append, if_pos (by omega),
            List.getElem?_append_right hi, List.getElem?_replicate,
            if_pos (by omega)]
          rfl
        · rw [List.getElem?_append_right (by omega), hlen,
            List.getElem?_len_le (by simp; omega)]

/-- Lemma: `setTrueAt` never lowers a flag. -/
theorem setTrueAt_getD_true (l : List Bool) (j i : Nat)
    (h : l.getD i false = true) : (setTrueAt l j).getD i false = true := by
  rcases setTrueAt_getD l j i with h' | h'
  · exact h'
  · rw [h', h]

/-- Lemma: `endMissionCore` leaves the transient session state alone and lands on
the debrief screen. -/
theorem endMissionCore_frame (s : St) (lvl : LevelDefinition) :
    (endMissionCore s lvl).messageCount = s.messageCount ∧
    (endMissionCore s lvl).chatHistory = s.chatHistory ∧
    (endMissionCore s lvl).currentScore = s.currentScore ∧
    (endMissionCore s lvl).inputDisabled = s.inputDisabled ∧
    (endMissionCore s lvl).chatLog = s.chatLog ∧
    (endMissionCore s lvl).currentLevel = s.currentLevel ∧
    (endMissionCore s lvl).levelsData = s.levelsData ∧
    (endMissionCore s lvl).screen = Screen.debrief := by
  unfold endMissionCore saveProgress
  rcases h : s.playerProgress.scores[lvl.id - 1]? with _ | old <;>
    simp only [h] <;> split_ifs <;> simp

/-- The debrief title records the pass/fail comparison
`currentScore >= passScore`. -/
theorem endMissionCore_title (s : St) (lvl : LevelDefinition) :
    (endMissionCore s lvl).debriefTitle =
      if lvl.passScore ≤ s.currentScore then "Mission Successful"
      else "Mission Failed" := by
  unfold endMissionCore saveProgress
  rcases h : s.playerProgress.scores[lvl.id - 1]? with _ | old <;>
    simp only [h] <;> split_ifs <;> rfl

/-- The scores array after `endMissionCore`: the strictly-greater
high-score replacement and nothing else. -/
theorem endMissionCore_scores (s : St) (lvl : LevelDefinition) :
    (endMissionCore s lvl).playerProgress.scores =
      match s.playerProgress.scores[lvl.id - 1]? with
      | some old =>
          if old < s.currentScore then
            s.playerProgress.scores.set (lvl.id - 1) s.currentScore
          else s.playerProgress.scores
      | none => s.playerProgress.scores := by
  unfold endMissionCore saveProgress
  rcases h : s.playerProgress.scores[lvl.id - 1]? with _ | old <;>
    simp only [h] <;> split_ifs <;> rfl

/-- Lemma: `endMissionCore` never lowers an unlock flag. -/
theorem endMissionCore_unlocks_monotone (s : St) (lvl : LevelDefinition)
    (i : Nat) (h : s.playerProgress.unlocks.getD i false = true) :
    (endMissionCore s lvl).playerProgress.unlocks.getD i false = true := by
  unfold endMissionCore saveProgress
  rcases hm : s.playerProgress.scores[lvl.id - 1]? with _ | old <;>
    simp only [hm] <;> split_ifs <;>
    first
      | exact h
      | exact setTrueAt_getD_true _ _ _ h

/-- Any unlock flag `endMissionCore` changes, it changes to `true`. -/
theorem endMissionCore_unlocks_change (s : St) (lvl : LevelDefinition)
    (i : Nat) :
    (endMissionCore s lvl).playerProgress.unlocks.getD i false = true ∨
    (endMissionCore s lvl).playerProgress.unlocks.getD i false =
      s.playerProgress.unlocks.getD i false := by
  unfold endMissionCore saveProgress
  rcases hm : s.playerProgress.scores[lvl.id - 1]? with _ | old <;>
    simp only [hm] <;> split_ifs <;>
    first
      | exact Or.inr rfl
      | exact setTrueAt_getD _ _ _

/-- With an active level and a non-empty trimmed input, `handleChatSubmit`
returns normally: it reaches `afterOutcome` and then runs the
end-of-mission check on the incremented count. -/
theorem handleChatSubmit_eq (s : St) (raw : String) (outcome : RelayOutcome)
    (lvl : LevelDefinition) (hlvl : s.currentLevel = some lvl)
    (hmsg : ¬ trimStr raw = "") :
    handleChatSubmit s raw outcome =
      if lvl.missionLength ≤ s.messageCount + 1
      then Except.ok (endMissionCore (afterOutcome s (trimStr raw) outcome) lvl)
      else Except.ok (afterOutcome s (trimStr raw) outcome) := by
  cases outcome with
  | success d =>
      unfold handleChatSubmit endMission afterOutcome
      rw [if_neg hmsg]
      simp only [hlvl]
  | failure msg =>
      unfold handleChatSubmit endMission afterOutcome
      rw [if_neg hmsg]
      simp only [hlvl]

/-- Lemma: `afterOutcome` in either case, the frame facts every claim needs. -/
theorem afterOutcome_frame (s : St) (m : String) (outcome : RelayOutcome) :
    (afterOutcome s m outcome).messageCount = s.messageCount + 1 ∧
    (afterOutcome s m outcome).inputDisabled = false ∧
    (afterOutcome s m outcome).playerProgress = s.playerProgress ∧
    (afterOutcome s m outcome).screen = s.screen ∧
    (afterOutcome s m outcome).currentLevel = s.currentLevel := by
  cases outcome <;> exact ⟨rfl, rfl, rfl, rfl, rfl⟩

/-- Lemma: `startLevel` never touches the persisted progress. -/
theorem startLevel_playerProgress (s : St) (levelId : Nat) :
    (startLevel s levelId).playerProgress = s.playerProgress := by
  unfold startLevel
  rcases h : s.levelsData.find? (fun l => l.id == levelId) with _ | lvl <;>
    simp only [h]

/-! ### Claims -/

/-- C1 counterexample: starting an unknown level id from a state with an
active level is not a no-op — the assignment `currentLevel =
levelsData.find(...)` runs before the not-found guard and clears the
current level reference. -/
theorem c1_counterexample :
    gameSt.levelsData.find? (fun l => l.id == 99) = none ∧
    (startLevel gameSt 99).currentLevel ≠ gameSt.currentLevel := by
  refine ⟨rfl, ?_⟩
  decide

/-- C1 (amended): for an id not in the catalog, `startLevel` leaves score,
message count, history, transcript, progress and the active screen
unchanged, but overwrites the current level reference with `undefined`
(it never switches to another catalog level). -/
theorem c1_startLevel_unknown_id (s : St) (levelId : Nat)
    (h : s.levelsData.find? (fun l => l.id == levelId) = none) :
    startLevel s levelId = { s with currentLevel := none } := by
  unfold startLevel
  rw [h]

/-- C1 witness: the amended statement at the concrete fixture. -/
theorem c1_startLevel_unknown_id_witness :
    startLevel gameSt 99 = { gameSt with currentLevel := none } :=
  c1_startLevel_unknown_id gameSt 99 (by decide)

/-- C2 counterexample: a corrupt stored record does not fall back to the
default progress — `JSON.parse` throws out of `loadProgress`, uncaught. -/
theorem c2_counterexample :
    loadProgress { gameSt with storage := some none } = Except.error () := rfl

/-- C2 (amended): for every stored record that is unparseable, `load()`
throws (the `JSON.parse` exception propagates uncaught out of
`loadProgress`; no fallback to the default progress occurs and nothing is
surfaced or recovered locally). -/
theorem c2_loadProgress_corrupt_throws (s : St) (h : s.storage = some none) :
    loadProgress s = Except.error () := by
  unfold loadProgress
  rw [h]

/-- C2 witness: the amended statement at the concrete fixture. -/
theorem c2_loadProgress_corrupt_throws_witness :
    loadProgress { gameSt with storage := some none } = Except.error () :=
  c2_loadProgress_corrupt_throws { gameSt with storage := some none } rfl

/-- C10: a successfully parsed stored record replaces the in-memory
progress verbatim for every parse result `p`, however invariant-violating
— no validation or re-establishment of the data-model invariants occurs
on load. -/
theorem c10_loadProgress_no_validation (s : St) (p : PlayerProgress)
    (h : s.storage = some (some p)) :
    loadProgress s = Except.ok { s with playerProgress := p } := by
  unfold loadProgress
  rw [h]

/-- C10 witness: a record with `unlocks[0]` false and array lengths
disagreeing with the catalog is accepted as-is. -/
theorem c10_loadProgress_no_validation_witness :
    loadProgress { gameSt with storage := some (some badProgress) } =
      Except.ok
        { { gameSt with storage := some (some badProgress) } with
          playerProgress := badProgress } ∧
    badProgress.unlocks.getD 0 false = false ∧
    badProgress.unlocks.length ≠ badProgress.scores.length :=
  ⟨c10_loadProgress_no_validation
      { gameSt with storage := some (some badProgress) } badProgress rfl,
    rfl, by decide⟩

/-- C4: mission resolution passes iff the final score reaches the level's
`passScore` (witnessed by the debrief verdict the code writes); the
threshold is inclusive, so `score = passScore` passes and
`score = passScore - 1` fails. -/
theorem c4_endMission_pass_iff (s : St) (lvl : LevelDefinition)
    (h : s.currentLevel = some lvl) :
    ∃ s', endMission s = Except.ok s' ∧
      (s'.debriefTitle = "Mission Successful" ↔
        lvl.passScore ≤ s.currentScore) ∧
      (s.currentScore = lvl.passScore →
        s'.debriefTitle = "Mission Successful") ∧
      (s.currentScore = lvl.passScore - 1 →
        s'.debriefTitle = "Mission Failed") := by
  refine ⟨endMissionCore s lvl, by unfold endMission; rw [h], ?_, ?_, ?_⟩
  · rw [endMissionCore_title]
    by_cases hp : lvl.passScore ≤ s.currentScore
    · rw [if_pos hp]
      simp [hp]
    · rw [if_neg hp]
      constructor
      · intro he
        exact absurd he (by decide)
      · intro hc
        exact absurd hc hp
  · intro he
    rw [endMissionCore_title, if_pos (le_of_eq he.symm)]
  · intro he
    rw [endMissionCore_title, if_neg (by omega)]

/-- C4 witness: on the fixture level (`passScore = 10`), a final score of
10 passes. -/
theorem c4_endMission_pass_iff_witness :
    ∃ s', endMission { gameSt with currentScore := 10 } = Except.ok s' ∧
      (s'.debriefTitle = "Mission Successful" ↔ (10 : Int) ≤ 10) ∧
      ((10 : Int) = 10 → s'.debriefTitle = "Mission Successful") ∧
      ((10 : Int) = 10 - 1 → s'.debriefTitle = "Mission Failed") :=
  c4_endMission_pass_iff { gameSt with currentScore := 10 } lvlA rfl

/-- C5: the stored per-level high score is replaced only under a strictly
greater final score; on a tie or lower score the scores array is
untouched, and a strictly greater score overwrites exactly the entry at
`levelIndex = id - 1`. -/
theorem c5_endMission_highscore (s : St) (lvl : LevelDefinition) (old : Int)
    (h : s.currentLevel = some lvl)
    (hold : s.playerProgress.scores[lvl.id - 1]? = some old) :
    ∃ s', endMission s = Except.ok s' ∧
      (s.currentScore ≤ old →
        s'.playerProgress.scores = s.playerProgress.scores) ∧
      (old < s.currentScore →
        s'.playerProgress.scores[lvl.id - 1]? = some s.currentScore ∧
        ∀ j, j ≠ lvl.id - 1 →
          s'.playerProgress.scores[j]? = s.playerProgress.scores[j]?) := by
  have hlen : lvl.id - 1 < s.playerProgress.scores.length := by
    by_contra hn
    push_neg at hn
    rw [List.getElem?_len_le hn] at hold
    exact Option.noConfusion hold
  refine ⟨endMissionCore s lvl, by unfold endMission; rw [h], ?_, ?_⟩
  · intro hle
    simp only [endMissionCore_scores, hold]
    rw [if_neg (not_lt.mpr hle)]
  · intro hlt
    constructor
    · simp only [endMissionCore_scores, hold]
      rw [if_pos hlt, List.getElem?_set_self hlen]
    · intro j hj
      simp only [endMissionCore_scores, hold]
      rw [if_pos hlt, List.getElem?_set_ne (Ne.symm hj)]

/-- C5 witness: final score 5 strictly beats the stored 0 and overwrites
slot 0; the tie branch is vacuous at this input. -/
theorem c5_endMission_highscore_witness :
    ∃ s', endMission { gameSt with currentScore := 5 } = Except.ok s' ∧
      ((5 : Int) ≤ 0 →
        s'.playerProgress.scores = defaultPlayerProgress.scores) ∧
      ((0 : Int) < 5 →
        s'.playerProgress.scores[(0 : Nat)]? = some 5 ∧
        ∀ j, j ≠ (0 : Nat) →
          s'.playerProgress.scores[j]? = defaultPlayerProgress.scores[j]?) :=
  c5_endMission_highscore { gameSt with currentScore := 5 } lvlA 0 rfl rfl

/-- C3: an accepted submission increments `messageCount` by exactly one
before the relay call, for every relay outcome; the end-of-mission check
runs after the turn regardless of the outcome, and the session lands on
the debrief (Ended) screen exactly when the incremented count reaches
`missionLength`. -/
theorem c3_submitTurn_count_and_end (s : St) (raw : String)
    (outcome : RelayOutcome) (lvl : LevelDefinition)
    (hlvl : s.currentLevel = some lvl) (hmsg : ¬ trimStr raw = "")
    (hscr : s.screen = Screen.game) :
    ∃ s', handleChatSubmit s raw outcome = Except.ok s' ∧
      s'.messageCount = s.messageCount + 1 ∧
      (s'.screen = Screen.debrief ↔ lvl.missionLength ≤ s.messageCount + 1) := by
  rw [handleChatSubmit_eq s raw outcome lvl hlvl hmsg]
  by_cases hend : lvl.missionLength ≤ s.messageCount + 1
  · rw [if_pos hend]
    refine ⟨_, rfl, ?_, ?_⟩
    · rw [(endMissionCore_frame _ lvl).1,
        (afterOutcome_frame s (trimStr raw) outcome).1]
    · rw [(endMissionCore_frame _ lvl).2.2.2.2.2.2.2]
      simp [hend]
  · rw [if_neg hend]
    refine ⟨_, rfl, (afterOutcome_frame s (trimStr raw) outcome).1, ?_⟩
    rw [(afterOutcome_frame s (trimStr raw) outcome).2.2.2.1, hscr]
    simp [hend]

/-- C3 witness: a failed relay on an accepted turn still advances the
count from 0 to 1 and does not end the 3-turn fixture mission. -/
theorem c3_submitTurn_count_and_end_witness :
    ∃ s', handleChatSubmit gameSt "hello" (RelayOutcome.failure "boom") =
        Except.ok s' ∧
      s'.messageCount = 0 + 1 ∧
      (s'.screen = Screen.debrief ↔ lvlA.missionLength ≤ 0 + 1) :=
  c3_submitTurn_count_and_end gameSt "hello" (RelayOutcome.failure "boom")
    lvlA rfl (by decide) rfl

/-- C6: a relay failure on an accepted turn surfaces only as a
system-level transcript entry: the model-facing history and the score are
unchanged, the submission path returns normally (no uncaught exception),
and input is re-enabled afterward. -/
theorem c6_relay_failure_isolated (s : St) (raw msg : String)
    (lvl : LevelDefinition) (hlvl : s.currentLevel = some lvl)
    (hmsg : ¬ trimStr raw = "") :
    ∃ s', handleChatSubmit s raw (RelayOutcome.failure msg) = Except.ok s' ∧
      s'.chatHistory = s.chatHistory ∧
      s'.currentScore = s.currentScore ∧
      s'.inputDisabled = false ∧
      s'.chatLog =
        s.chatLog ++ [(Sender.user, trimStr raw)] ++
          [(Sender.system, "Error: Could not get response from AI. " ++ msg)] := by
  rw [handleChatSubmit_eq s raw (RelayOutcome.failure msg) lvl hlvl hmsg]
  by_cases hend : lvl.missionLength ≤ s.messageCount + 1
  · rw [if_pos hend]
    have hfr :=
      endMissionCore_frame (afterOutcome s (trimStr raw) (RelayOutcome.failure msg)) lvl
    exact ⟨_, rfl, by rw [hfr.2.1]; rfl, by rw [hfr.2.2.1]; rfl,
      by rw [hfr.2.2.2.1]; rfl, by rw [hfr.2.2.2.2.1]; rfl⟩
  · rw [if_neg hend]
    exact ⟨_, rfl, rfl, rfl, rfl, rfl⟩

/-- C6 witness: a concrete failed relay turn, from a mid-mission state so
the mission does not end on it. -/
theorem c6_relay_failure_isolated_witness :
    ∃ s', handleChatSubmit { gameSt with messageCount := 1 } "offer"
        (RelayOutcome.failure "timeout") = Except.ok s' ∧
      s'.chatHistory = gameSt.chatHistory ∧
      s'.currentScore = gameSt.currentScore ∧
      s'.inputDisabled = false ∧
      s'.chatLog =
        gameSt.chatLog ++ [(Sender.user, "offer")] ++
          [(Sender.system, "Error: Could not get response from AI. timeout")] :=
  c6_relay_failure_isolated { gameSt with messageCount := 1 } "offer" "timeout"
    lvlA rfl (by decide)

/-- C7 counterexample: with the backend credential absent, a non-POST
request is answered 500 (the key check runs first), not 405 as the claim
requires of every non-POST request. -/
theorem c7_counterexample :
    reqGet.method ≠ "POST" ∧
    (handler none reqGet (ModelOutcome.failure "boom")).1.status = 500 ∧
    (handler none reqGet (ModelOutcome.failure "boom")).1.status ≠ 405 := by
  decide

/-- C7 (amended): provided the backend credential is present (truthy),
validation precedes the external-model call — non-POST requests get 405,
POST requests with a missing (or falsy) required field get 400, both
without invoking the model; with a valid request the model is invoked and
its call/parse failure is reported as 500 with the message in `details`;
an absent credential short-circuits everything to 500. -/
theorem c7_handler_validation (apiKey : Option String) (req : RelayRequest)
    (outcome : ModelOutcome) :
    (strFalsy apiKey = true →
      handler apiKey req outcome =
        ({ status := 500, body := RespBody.err "API key not configured." },
         false)) ∧
    (strFalsy apiKey = false → req.method ≠ "POST" →
      handler apiKey req outcome =
        ({ status := 405, body := RespBody.err "Method Not Allowed" },
         false)) ∧
    (strFalsy apiKey = false → req.method = "POST" →
      (strFalsy req.systemPrompt || req.history.isNone ||
        strFalsy req.userMessage) = true →
      handler apiKey req outcome =
        ({ status := 400, body := RespBody.err "Missing required fields." },
         false)) ∧
    (strFalsy apiKey = false → req.method = "POST" →
      (strFalsy req.systemPrompt || req.history.isNone ||
        strFalsy req.userMessage) = false →
      ∀ msg, outcome = ModelOutcome.failure msg →
        handler apiKey req outcome =
          ({ status := 500,
             body :=
               RespBody.errWithDetails "Failed to fetch AI response." msg },
           true)) ∧
    (strFalsy apiKey = false → req.method = "POST" →
      (strFalsy req.systemPrompt || req.history.isNone ||
        strFalsy req.userMessage) = false →
      ∀ d, outcome = ModelOutcome.success d →
        handler apiKey req outcome =
          ({ status := 200, body := RespBody.payload d }, true)) := by
  refine ⟨fun hk => ?_, fun hk hm => ?_, fun hk hm hf => ?_,
    fun hk hm hf msg ho => ?_, fun hk hm hf d ho => ?_⟩
  · simp [handler, hk]
  · simp [handler, hk, hm]
  · simp [handler, hk, hm, hf]
  · subst ho
    simp [handler, hk, hm, hf]
  · subst ho
    simp [handler, hk, hm, hf]

/-- C7 witness: with a credential configured and a valid POST request, a
model failure is reported as 500 with the underlying message in
`details`. -/
theorem c7_handler_validation_witness :
    handler (some "k") reqGood (ModelOutcome.failure "boom") =
      ({ status := 500,
         body := RespBody.errWithDetails "Failed to fetch AI response." "boom" },
       true) :=
  (c7_handler_validation (some "k") reqGood
      (ModelOutcome.failure "boom")).2.2.2.1 rfl rfl rfl "boom" rfl

/-- C9: the credential check is evaluated before method and field
validation — with the credential absent every request, non-POST and
field-missing ones included, is answered 500 "API key not configured.",
never 405 or 400, and the model is not invoked. -/
theorem c9_key_check_first (apiKey : Option String) (req : RelayRequest)
    (outcome : ModelOutcome) (h : apiKey = none) :
    handler apiKey req outcome =
      ({ status := 500, body := RespBody.err "API key not configured." },
       false) ∧
    (handler apiKey req outcome).1.status ≠ 405 ∧
    (handler apiKey req outcome).1.status ≠ 400 := by
  subst h
  have h1 : handler none req outcome =
      ({ status := 500, body := RespBody.err "API key not configured." },
       false) := rfl
  refine ⟨h1, ?_, ?_⟩ <;> rw [h1] <;> decide

/-- C9 witness: a GET request with every field missing still gets the
500 credential response when the key is absent. -/
theorem c9_key_check_first_witness :
    handler none reqGet (ModelOutcome.failure "boom") =
      ({ status := 500, body := RespBody.err "API key not configured." },
       false) ∧
    (handler none reqGet (ModelOutcome.failure "boom")).1.status ≠ 405 ∧
    (handler none reqGet (ModelOutcome.failure "boom")).1.status ≠ 400 :=
  c9_key_check_first none reqGet (ModelOutcome.failure "boom") rfl

/-- C8 counterexample: `loadProgress` replaces the progress record
wholesale with the stored parse result, so a load can set an unlocked
flag back to false — here `unlocks[1]` goes from true to false. -/
theorem c8_counterexample :
    relockSt.playerProgress.unlocks.getD 1 false = true ∧
    loadProgress relockSt =
      Except.ok { relockSt with playerProgress := regressedProgress } ∧
    regressedProgress.unlocks.getD 1 false = false :=
  ⟨rfl, rfl, rfl⟩

/-- C8 (amended): once `unlocks[i]` is true, `startLevel`, `save`,
`submitTurn` and mission resolution never set it back to false, and
mission resolution only ever changes an unlock flag to true; `load`,
however, replaces the whole record with the stored parse result and can
lower flags (see the counterexample). -/
theorem c8_unlocks_monotone_except_load (s : St) (i : Nat)
    (h : s.playerProgress.unlocks.getD i false = true) :
    (∀ levelId,
      (startLevel s levelId).playerProgress.unlocks.getD i false = true) ∧
    ((saveProgress s).playerProgress.unlocks.getD i false = true) ∧
    (∀ raw outcome s', handleChatSubmit s raw outcome = Except.ok s' →
      s'.playerProgress.unlocks.getD i false = true) ∧
    (∀ s', endMission s = Except.ok s' →
      s'.playerProgress.unlocks.getD i false = true) ∧
    (∀ lvl j,
      (endMissionCore s lvl).playerProgress.unlocks.getD j false = true ∨
      (endMissionCore s lvl).playerProgress.unlocks.getD j false =
        s.playerProgress.unlocks.getD j false) := by
  refine ⟨?_, h, ?_, ?_, ?_⟩
  · intro levelId
    rw [startLevel_playerProgress]
    exact h
  · intro raw outcome s' hs'
    by_cases hmsg : trimStr raw = ""
    · simp only [handleChatSubmit, if_pos hmsg, Except.ok.injEq] at hs'
      subst hs'
      exact h
    · rcases hl : s.currentLevel with _ | lvl
      · simp only [handleChatSubmit, if_neg hmsg, hl] at hs'
        exact Except.noConfusion hs'
      · rw [handleChatSubmit_eq s raw outcome lvl hl hmsg] at hs'
        by_cases hend : lvl.missionLength ≤ s.messageCount + 1
        · rw [if_pos hend] at hs'
          injection hs' with he
          subst he
          exact endMissionCore_unlocks_monotone _ lvl i
            (by rw [(afterOutcome_frame s (trimStr raw) outcome).2.2.1]
                exact h)
        · rw [if_neg hend] at hs'
          injection hs' with he
          subst he
          rw [(afterOutcome_frame s (trimStr raw) outcome).2.2.1]
          exact h
  · intro s' hs'
    rcases hl : s.currentLevel with _ | lvl
    · simp only [endMission, hl] at hs'
      exact Except.noConfusion hs'
    · simp only [endMission, hl, Except.ok.injEq] at hs'
      subst hs'
      exact endMissionCore_unlocks_monotone s lvl i h
  · intro lvl j
    exact endMissionCore_unlocks_change s lvl j

/-- C8 witness: with level 1 unlocked in the fixture, starting an unknown
level and saving both keep it unlocked. -/
theorem c8_unlocks_monotone_except_load_witness :
    (startLevel gameSt 2).playerProgress.unlocks.getD 0 false = true ∧
    (saveProgress gameSt).playerProgress.unlocks.getD 0 false = true :=
  ⟨(c8_unlocks_monotone_except_load gameSt 0 rfl).1 2,
   (c8_unlocks_monotone_except_load gameSt 0 rfl).2.1⟩
